import Mathlib

/-!
# Verification of the basicpng decoder (src/basicpng.py)

This file is a shallow embedding of the PNG decoder in `src/basicpng.py`
into Lean, together with theorems settling the frozen claims about its
specification.

Modelling conventions:
* Python byte strings / bytearrays are `List Nat` (each entry a byte value).
* Python `int` arithmetic is `Int` (or `Nat` when the values involved are
  provably non-negative and no subtraction below zero occurs).
* Python code that can raise an exception is modelled with `Option`
  (for helper functions) or `Except PngError` (for decoder phases);
  `none` / `.error` marks the raise.
* Python float expressions are modelled over `ℚ`; for every value that the
  program actually computes the IEEE-754 double result is exact (the
  operands are tiny integers divided by 8 or by divisors of 255), so the
  rational model is faithful.
-/

/-- `PaethPredictor(a, b, c)` from the source, lines 40-58.  Arithmetic is
done in ℤ (`p` may be negative), exactly as Python's unbounded ints. -/
def paethPredictor (a b c : Int) : Int :=
  let p := a + b - c
  let pa := |p - a|
  let pb := |p - b|
  let pc := |p - c|
  if pa ≤ pb ∧ pa ≤ pc then a
  else if pb ≤ pc then b
  else c

/-- `Clamp(x)` from the source, lines 60-70, for an integer argument
(`int(round(x))` is the identity on ints). -/
def clamp (x : Int) : Nat :=
  if 0 ≤ x ∧ x ≤ 255 then x.toNat
  else if x < 0 then 0
  else 255

/-- Python 3's `round` on an exact rational value: round half to even. -/
def pyRound (q : ℚ) : Int :=
  let f := ⌊q⌋
  let r := q - (f : ℚ)
  if r < 1/2 then f
  else if 1/2 < r then f + 1
  else if f % 2 = 0 then f else f + 1

/-- `GetNormalizer(bits_per_channel, is_indexed)` from the source,
lines 72-80.  Returns the identity when `is_indexed` is truthy, else the
scaling lambda `Clamp(x / float((1 << bits) - 1) * 255.0)`.
NOTE: every call site in `ExplodeBytes` passes the two arguments swapped
(`GetNormalizer(is_indexed, 4)` etc.), so in the program the second
argument is the (nonzero, hence truthy) bit count and the identity branch
is always taken; the scaling branch is dead code. -/
def getNormalizer (bits_per_channel : Nat) (is_indexed : Bool) : Nat → Nat :=
  if is_indexed then fun x => x
  else fun x => clamp (pyRound ((x : ℚ) / ((2 ^ bits_per_channel - 1 : Nat) : ℚ) * 255))

/-- Python truthiness of an int. -/
def pyTruthy (n : Nat) : Bool := n ≠ 0

/-- Python int value of a bool (False = 0, True = 1). -/
def natOfBool (b : Bool) : Nat := if b then 1 else 0

/-- `ExplodeBytes(data, bits_per_channel, is_indexed)` from the source,
lines 82-131.
* depth 8: pass through.
* depth 16: the source runs `for i in range(0, len(data) / 2)`; in
  Python 3 `len(data) / 2` is a float and `range` raises `TypeError`
  before any output is produced, hence `none`.
* depths 4 / 2 / 1: each byte is unpacked MSB-group first; the source
  calls `GetNormalizer(is_indexed, depth)` — arguments swapped — so the
  normalizer receives `bits_per_channel := int(is_indexed)` and
  `is_indexed := depth` (truthy), and is therefore the identity.
* any other depth: the accumulator `rval` is returned empty. -/
def explodeBytes (data : List Nat) (bits_per_channel : Nat) (is_indexed : Bool) :
    Option (List Nat) :=
  if bits_per_channel = 8 then some data
  else if bits_per_channel = 16 then
    none
  else if bits_per_channel = 4 then
    let normalizer := getNormalizer (natOfBool is_indexed) (pyTruthy 4)
    some ((data.map fun bb =>
      [normalizer ((bb &&& 0xF0) >>> 4),
       normalizer ((bb &&& 0x0F) >>> 0)]).flatten)
  else if bits_per_channel = 2 then
    let normalizer := getNormalizer (natOfBool is_indexed) (pyTruthy 2)
    some ((data.map fun bb =>
      [normalizer ((bb &&& 0xC0) >>> 6),
       normalizer ((bb &&& 0x30) >>> 4),
       normalizer ((bb &&& 0x0C) >>> 2),
       normalizer ((bb &&& 0x03) >>> 0)]).flatten)
  else if bits_per_channel = 1 then
    let normalizer := getNormalizer (natOfBool is_indexed) (pyTruthy 1)
    some ((data.map fun bb =>
      [normalizer ((bb &&& 0x80) >>> 7),
       normalizer ((bb &&& 0x40) >>> 6),
       normalizer ((bb &&& 0x20) >>> 5),
       normalizer ((bb &&& 0x10) >>> 4),
       normalizer ((bb &&& 0x08) >>> 3),
       normalizer ((bb &&& 0x04) >>> 2),
       normalizer ((bb &&& 0x02) >>> 1),
       normalizer ((bb &&& 0x01) >>> 0)]).flatten)
  else some []

/-- The exceptions the decoder can raise, one constructor per kind of
Python exception site:
* `keyError` — `CHANNELS[self.color_type]` on an unknown color type;
* `indexError` — an out-of-range subscript on a bytes/list object;
* `typeError` — `range(0, len(data)/2)` (float argument) in the 16-bit
  unpacker, and `bytes([0] * len(brow)-1)` (list minus int) in the Up
  branch;
* `unsupportedCompression` / `unsupportedFilterMethod` /
  `unsupportedInterlace` — the three explicit raises in `IHDR`;
* `nonStandardFilter` — the explicit raise for a filter tag outside 0..4;
* `missingPalette` — the raise at the end of `__init__` for an indexed
  image with no palette;
* `unicodeDecodeError` — `bcht.decode('utf-8')` on a chunk-type field
  that is not valid UTF-8. -/
inductive PngError where
  | keyError
  | indexError
  | typeError
  | unsupportedCompression
  | unsupportedFilterMethod
  | unsupportedInterlace
  | nonStandardFilter
  | missingPalette
  | unicodeDecodeError
deriving DecidableEq, Repr

/-- The mutable attributes of a `PngDecode` instance (source lines
152-172).  `filter` and `interlace` are only assigned in `IHDR`; the
model initialises them to 0. -/
structure DecoderState where
  w : Nat
  h : Nat
  color_type : Nat
  num_channels : Nat
  bit_depth : Nat
  compression : Nat
  filter : Nat
  interlace : Nat
  rgba : List Nat
  idat_data : List Nat
  palette : Option (List (List Nat))
deriving DecidableEq, Repr

/-- The state built by `PngDecode.__init__` before `parse` runs. -/
def initState : DecoderState :=
  { w := 0, h := 0, color_type := 0, num_channels := 0, bit_depth := 0,
    compression := 0, filter := 0, interlace := 0,
    rgba := [], idat_data := [], palette := none }

/-- `int.from_bytes(l, "big")`. -/
def beNat (l : List Nat) : Nat := l.foldl (fun a b => a * 256 + b) 0

/-- `PngDecode.IHDR` (source lines 174-216): reads the 13 header bytes,
looks the color type up in `CHANNELS` (a missing key raises `KeyError`),
then rejects nonzero compression / filter / interlace methods. -/
def ihdrHandler (st : DecoderState) (bchd : List Nat) : Except PngError DecoderState :=
  match bchd.get? 8, bchd.get? 9, bchd.get? 10, bchd.get? 11, bchd.get? 12 with
  | some depth, some color, some comp, some filt, some inter =>
    match (if color = 0 then some 1 else if color = 2 then some 3
           else if color = 3 then some 1 else if color = 4 then some 2
           else if color = 6 then some 4 else none) with
    | none => Except.error PngError.keyError
    | some nc =>
      if comp ≠ 0 then Except.error PngError.unsupportedCompression
      else if filt ≠ 0 then Except.error PngError.unsupportedFilterMethod
      else if inter ≠ 0 then Except.error PngError.unsupportedInterlace
      else Except.ok { st with
        w := beNat (bchd.take 4),
        h := beNat ((bchd.drop 4).take 4),
        bit_depth := depth, color_type := color, compression := comp,
        filter := filt, interlace := inter, num_channels := nc }
  | _, _, _, _, _ => Except.error PngError.indexError

/-- `PngDecode.PLTE` (source lines 228-239): with `sz = len(bchd) // 3`,
returns without touching the palette when `sz == 0 or sz > 255`;
otherwise replaces the palette with `sz` RGB triples read from the
payload (bytes beyond the last full triple are ignored). -/
def plteHandler (bchd : List Nat) (palette : Option (List (List Nat))) :
    Option (List (List Nat)) :=
  let sz := bchd.length / 3
  if sz = 0 ∨ sz > 255 then palette
  else some ((List.range sz).map fun i =>
    [bchd.getD (3 * i + 0) 0, bchd.getD (3 * i + 1) 0, bchd.getD (3 * i + 2) 0])

/-- Strict UTF-8 validity of a byte sequence, the acceptance condition
of Python's `bytes.decode('utf-8')` (RFC 3629: no overlong forms, no
surrogates, nothing above U+10FFFF, no truncated sequence). -/
def validUtf8 : List Nat → Bool
  | [] => true
  | b :: rest =>
    if b < 0x80 then validUtf8 rest
    else if 0xC2 ≤ b ∧ b ≤ 0xDF then
      match rest with
      | b1 :: rest2 =>
        if 0x80 ≤ b1 ∧ b1 ≤ 0xBF then validUtf8 rest2 else false
      | [] => false
    else if 0xE0 ≤ b ∧ b ≤ 0xEF then
      match rest with
      | b1 :: b2 :: rest2 =>
        if ((if b = 0xE0 then 0xA0 ≤ b1 ∧ b1 ≤ 0xBF
             else if b = 0xED then 0x80 ≤ b1 ∧ b1 ≤ 0x9F
             else 0x80 ≤ b1 ∧ b1 ≤ 0xBF) ∧ 0x80 ≤ b2 ∧ b2 ≤ 0xBF) then
          validUtf8 rest2
        else false
      | _ => false
    else if 0xF0 ≤ b ∧ b ≤ 0xF4 then
      match rest with
      | b1 :: b2 :: b3 :: rest2 =>
        if ((if b = 0xF0 then 0x90 ≤ b1 ∧ b1 ≤ 0xBF
             else if b = 0xF4 then 0x80 ≤ b1 ∧ b1 ≤ 0x8F
             else 0x80 ≤ b1 ∧ b1 ≤ 0xBF) ∧
            (0x80 ≤ b2 ∧ b2 ≤ 0xBF) ∧ 0x80 ≤ b3 ∧ b3 ≤ 0xBF) then
          validUtf8 rest2
        else false
      | _ => false
    else false

/-- ASCII uppercase of one byte; `scht.upper()` applied byte-wise.  The
source decodes the 4 type bytes as UTF-8 and uppercases the string; for
the ASCII chunk names this byte-wise model is exact.  A valid non-ASCII
type field never dispatches in either model: its bytes ≥ 0x80 are fixed
by `upperByte` and cannot occur in the four ASCII handler names, and no
4-byte non-ASCII UTF-8 string uppercases to one of those names (the
case mappings that change byte length, such as ß→SS, ﬁ→FI or ı→I,
cannot produce IHDR/IDAT/PLTE/IEND from at most 4 bytes). -/
def upperByte (b : Nat) : Nat := if 97 ≤ b ∧ b ≤ 122 then b - 32 else b

/-- `scht.upper()` on the 4 raw type bytes. -/
def upperBytes (l : List Nat) : List Nat := l.map upperByte

/-- The bytes of "IHDR". -/
def ihdrName : List Nat := [73, 72, 68, 82]

/-- The bytes of "IDAT". -/
def idatName : List Nat := [73, 68, 65, 84]

/-- The bytes of "PLTE". -/
def plteName : List Nat := [80, 76, 84, 69]

/-- The bytes of "IEND". -/
def iendName : List Nat := [73, 69, 78, 68]

/-- The four 4-letter uppercase attribute names of a `PngDecode`
instance: `scht.upper() in dir(self)` holds exactly when the uppercased
type identifier is one of these (every other attribute in `dir(self)`
contains a lowercase letter or an underscore, or has a different
length). -/
def handledTypes : List (List Nat) := [ihdrName, idatName, plteName, iendName]

/-- Outcome of handling one chunk record inside `PngDecode.parse`'s
loop: keep reading, or stop (the `IEND` handler raises `EndReading`). -/
inductive StepResult where
  | cont (st : DecoderState)
  | stop (st : DecoderState)
deriving DecidableEq, Repr

/-- One iteration of the chunk loop in `PngDecode.parse` (source lines
357-369): first `scht = bcht.decode('utf-8')`, which raises
`UnicodeDecodeError` on a type field that is not valid UTF-8 and aborts
construction; then dispatch the payload to the matching handler when
`scht.upper() in dir(self)`, otherwise skip the record.
`IDAT` appends the payload to `idat_data` (source line 226); `IEND`
raises `EndReading` (source line 322). -/
def processChunk (st : DecoderState) (bcht : List Nat) (bchd : List Nat) :
    Except PngError StepResult :=
  if validUtf8 bcht then
    let u := upperBytes bcht
    if u = ihdrName then (ihdrHandler st bchd).map StepResult.cont
    else if u = idatName then
      Except.ok (StepResult.cont { st with idat_data := st.idat_data ++ bchd })
    else if u = plteName then
      Except.ok (StepResult.cont { st with palette := plteHandler bchd st.palette })
    else if u = iendName then Except.ok (StepResult.stop st)
    else Except.ok (StepResult.cont st)
  else Except.error PngError.unicodeDecodeError

/-- The chunk loop of `PngDecode.parse`: processes records until an
`IEND` record or the end of the record list (a truncated length read),
both of which end the loop by `EndReading` (source lines 339-370). -/
def parseChunks : DecoderState → List (List Nat × List Nat) → Except PngError DecoderState
  | st, [] => Except.ok st
  | st, (t, payload) :: rest =>
    match processChunk st t payload with
    | Except.error e => Except.error e
    | Except.ok (StepResult.stop st2) => Except.ok st2
    | Except.ok (StepResult.cont st2) => parseChunks st2 rest

/-- `self.rgba[-k:]` — the last `k` bytes.  Python's `l[-0:]` is the
whole list, and `l[-k:]` for `k ≥ len(l)` is also the whole list. -/
def lastSlice (l : List Nat) (k : Nat) : List Nat :=
  if k = 0 then l else l.drop (l.length - k)

/-- `www = int((self.w * num_channels * bit_depth / 8) + 1)` (source
line 257).  The Python expression divides in float arithmetic (exact for
these magnitudes: the product is far below 2^53 and division by 8 is
exact) and `int()` truncates, which on this positive value is the
floor. -/
def rowStride (w nc d : Nat) : Nat :=
  ⌊((w * nc * d : Nat) : ℚ) / 8 + 1⌋₊

/-- The loop of the Sub branch (source lines 274-279):
`decoded = (buffer[i+8] + buffer[i+8-bpp]) % 256`, written back into
`buffer[i+8]` and appended to the output.  An out-of-range subscript
raises `IndexError` (`none`). -/
def subLoop (bpp : Nat) : Nat → Nat → List Nat → List Nat → Option (List Nat)
  | 0, _, _, acc => some acc
  | n + 1, i, buffer, acc =>
    match buffer.get? (i + 8), buffer.get? (i + 8 - bpp) with
    | some x, some l =>
      subLoop bpp n (i + 1) (buffer.set (i + 8) ((x + l) % 256))
        (acc ++ [(x + l) % 256])
    | _, _ => none

/-- The loop of the Up branch (source lines 287-289):
`decoded = (buffer[i] + prior[i]) % 256`, appended (no write-back). -/
def upLoop (buffer prior : List Nat) : Nat → Nat → List Nat → Option (List Nat)
  | 0, _, acc => some acc
  | n + 1, i, acc =>
    match buffer.get? i, prior.get? i with
    | some x, some p => upLoop buffer prior n (i + 1) (acc ++ [(x + p) % 256])
    | _, _ => none

/-- The loop of the Average branch (source lines 298-301):
`decoded = (buffer[i+8] + floor((buffer[i+8-bpp] + prior[i+8]) / 2)) % 256`
(the float floor equals Nat division here), written back and appended. -/
def avgLoop (bpp : Nat) (prior : List Nat) :
    Nat → Nat → List Nat → List Nat → Option (List Nat)
  | 0, _, _, acc => some acc
  | n + 1, i, buffer, acc =>
    match buffer.get? (i + 8), buffer.get? (i + 8 - bpp), prior.get? (i + 8) with
    | some x, some l, some u =>
      avgLoop bpp prior n (i + 1) (buffer.set (i + 8) ((x + (l + u) / 2) % 256))
        (acc ++ [(x + (l + u) / 2) % 256])
    | _, _, _ => none

/-- The loop of the Paeth branch (source lines 312-315):
`decoded = (buffer[i+8] + PaethPredictor(buffer[i+8-bpp], prior[i+8], prior[i+8-bpp])) % 256`,
written back and appended.  Python's `%` on ints is `Int.emod`. -/
def paethLoop (bpp : Nat) (prior : List Nat) :
    Nat → Nat → List Nat → List Nat → Option (List Nat)
  | 0, _, _, acc => some acc
  | n + 1, i, buffer, acc =>
    match buffer.get? (i + 8), buffer.get? (i + 8 - bpp),
        prior.get? (i + 8), prior.get? (i + 8 - bpp) with
    | some x, some l, some u, some ul =>
      paethLoop bpp prior n (i + 1)
        (buffer.set (i + 8)
          ((((x : Int) + paethPredictor l u ul).emod 256).toNat))
        (acc ++ [(((x : Int) + paethPredictor l u ul).emod 256).toNat])
    | _, _, _, _ => none

/-- One iteration of the row loop in `PngDecode.decompress` (source
lines 258-317), for the row slice `brow`; returns the bytes appended to
`self.rgba` by that iteration.
* `brow[0]` on an empty slice raises `IndexError`.
* The Up branch takes `prior = self.rgba[-(w*nc):]`; when that slice is
  empty the statement `bytes([0] * len(brow)-1)` evaluates
  `[0]*len(brow) - 1` (list minus int) and raises `TypeError`.
* The Average and Paeth branches pad `prior` with just 8 zero bytes, so
  on row 0 the subscript `prior[i+8]` raises `IndexError`.
* A tag outside 0..4 raises (`nonStandardFilter`). -/
def decodeRow (bit_depth : Nat) (is_indexed : Bool) (w nc : Nat)
    (rgba : List Nat) (brow : List Nat) : Except PngError (List Nat) :=
  match brow.get? 0 with
  | none => Except.error PngError.indexError
  | some filter_subtype =>
    if filter_subtype = 0 then
      match explodeBytes (brow.drop 1) bit_depth is_indexed with
      | none => Except.error PngError.typeError
      | some exploded => Except.ok exploded
    else if filter_subtype = 1 then
      match explodeBytes (brow.drop 1) bit_depth is_indexed with
      | none => Except.error PngError.typeError
      | some exploded =>
        match subLoop nc (brow.length - 1) 0 (List.replicate 8 0 ++ exploded) [] with
        | none => Except.error PngError.indexError
        | some out => Except.ok out
    else if filter_subtype = 2 then
      match explodeBytes (brow.drop 1) bit_depth is_indexed with
      | none => Except.error PngError.typeError
      | some exploded =>
        let prior := lastSlice rgba (w * nc)
        if prior.length = 0 then Except.error PngError.typeError
        else
          match upLoop exploded prior (brow.length - 1) 0 [] with
          | none => Except.error PngError.indexError
          | some out => Except.ok out
    else if filter_subtype = 3 then
      match explodeBytes (brow.drop 1) bit_depth is_indexed with
      | none => Except.error PngError.typeError
      | some exploded =>
        let prior := List.replicate 8 0 ++ lastSlice rgba (w * nc)
        let prior := if prior.length = 0
          then List.replicate (8 + (brow.length - 1)) 0 else prior
        match avgLoop nc prior (brow.length - 1) 0
            (List.replicate 8 0 ++ exploded) [] with
        | none => Except.error PngError.indexError
        | some out => Except.ok out
    else if filter_subtype = 4 then
      match explodeBytes (brow.drop 1) bit_depth is_indexed with
      | none => Except.error PngError.typeError
      | some exploded =>
        let prior := List.replicate 8 0 ++ lastSlice rgba (w * nc)
        let prior := if prior.length = 0
          then List.replicate (8 + (brow.length - 1)) 0 else prior
        match paethLoop nc prior (brow.length - 1) 0
            (List.replicate 8 0 ++ exploded) [] with
        | none => Except.error PngError.indexError
        | some out => Except.ok out
    else Except.error PngError.nonStandardFilter

/-- The row loop of `PngDecode.decompress`: `h` iterations, row `j`
reading `ddat[j*www:(j+1)*www]` and appending its output to `rgba`. -/
def decodeRows (bit_depth : Nat) (is_indexed : Bool) (w nc www : Nat)
    (ddat : List Nat) : Nat → Nat → List Nat → Except PngError (List Nat)
  | 0, _, rgba => Except.ok rgba
  | n + 1, j, rgba =>
    match decodeRow bit_depth is_indexed w nc rgba ((ddat.drop (j * www)).take www) with
    | Except.error e => Except.error e
    | Except.ok row => decodeRows bit_depth is_indexed w nc www ddat n (j + 1) (rgba ++ row)

/-- `PngDecode.decompress` (source lines 241-317).  The zlib inflate is
the external collaborator `inflate`. -/
def decompressStage (inflate : List Nat → List Nat) (st : DecoderState) :
    Except PngError DecoderState :=
  let ddat := inflate st.idat_data
  let www := rowStride st.w st.num_channels st.bit_depth
  match decodeRows st.bit_depth (st.color_type == 3) st.w st.num_channels
      www ddat st.h 0 st.rgba with
  | Except.error e => Except.error e
  | Except.ok rgba => Except.ok { st with rgba := rgba }

/-- `PngDecode.__init__` after the magic-byte check (source lines
152-172): run the chunk loop, then (inside the `EndReading` handler)
decompress, then fail if the image is indexed but no palette was
installed. -/
def pngInit (inflate : List Nat → List Nat)
    (chunks : List (List Nat × List Nat)) : Except PngError DecoderState :=
  match parseChunks initState chunks with
  | Except.error e => Except.error e
  | Except.ok st =>
    match decompressStage inflate st with
    | Except.error e => Except.error e
    | Except.ok st2 =>
      if st2.color_type = 3 ∧ st2.palette = none then
        Except.error PngError.missingPalette
      else Except.ok st2

/-- Spec-side reconstruction of one scanline, written from the words of
the specification's filter table (spec section 4.5): byte `i` is
computed left to right as `(raw[i] + prediction) % 256`, where the
prediction for tag 0 is nothing, for tag 1 the already reconstructed
left neighbour `out[i-bpp]`, for tag 2 the prior-row byte `prior[i]`,
for tag 3 `floor((out[i-bpp] + prior[i]) / 2)`, and for tag 4
`PaethPredictor(out[i-bpp], prior[i], prior[i-bpp])`; out-of-range
left/up-left neighbours (`i < bpp`) are treated as 0, and the Paeth
predictor works in unbounded integers before the addition.
The first argument of the recursion counts the bytes still to produce;
`out` is the reconstructed prefix. -/
def specDefilterGo (tag bpp : Nat) (raw prior : List Nat) :
    Nat → List Nat → List Nat
  | 0, out => out
  | n + 1, out =>
    let i := out.length
    let rawi := raw.getD i 0
    let left := if bpp ≤ i then out.getD (i - bpp) 0 else 0
    let up := prior.getD i 0
    let upleft := if bpp ≤ i then prior.getD (i - bpp) 0 else 0
    let v : Nat :=
      match tag with
      | 0 => rawi
      | 1 => (rawi + left) % 256
      | 2 => (rawi + up) % 256
      | 3 => (rawi + (left + up) / 2) % 256
      | 4 => (rawi + (paethPredictor left up upleft).toNat) % 256
      | _ => 0
    specDefilterGo tag bpp raw prior n (out ++ [v])

/-- Spec-side defilter of a whole row: `raw.length` reconstructed
bytes, starting from the empty prefix. -/
def specDefilter (tag bpp : Nat) (raw prior : List Nat) : List Nat :=
  specDefilterGo tag bpp raw prior raw.length []

/-- `(pixel[0], pixel[1], pixel[2], pixel[3])` — the final tuple built
by `PngDecode.get`; a short list raises `IndexError`. -/
def tuple4 (pixel : List Nat) : Option (Nat × Nat × Nat × Nat) :=
  match pixel.get? 0, pixel.get? 1, pixel.get? 2, pixel.get? 3 with
  | some a, some b, some c, some d => some (a, b, c, d)
  | _, _, _, _ => none

/-- The channel-count padding of `PngDecode.get` (source lines
392-406), as the value of the final tuple: a 1-element pixel is
replicated with alpha 255, a 2-element pixel becomes (v,v,v,alpha), a
3-element pixel gets alpha 255 appended, anything else is read
as-is. -/
def padTuple (pixel : List Nat) : Option (Nat × Nat × Nat × Nat) :=
  if pixel.length = 1 then
    tuple4 (pixel ++ [pixel.getD 0 0, pixel.getD 0 0, 255])
  else if pixel.length = 2 then
    tuple4 [pixel.getD 0 0, pixel.getD 0 0, pixel.getD 0 0, pixel.getD 1 0]
  else if pixel.length = 3 then tuple4 (pixel ++ [255])
  else tuple4 pixel

/-- `PngDecode.get(x, y)` (source lines 375-406), including its effect
on the decoder state.  For an indexed image, `pixel` is
`self.palette[pixel[0]]` — a reference to (not a copy of) the palette
entry — so the `pixel.append(...)` calls of the 1- and 3-element
padding branches mutate that palette entry in place; the returned state
carries the mutated palette.  For every other color type `pixel` is a
fresh slice of `self.rgba` and the state is untouched.  Any failing
subscript or a `None` palette gives `none`. -/
def getPixel (st : DecoderState) (x y : Nat) :
    Option ((Nat × Nat × Nat × Nat) × DecoderState) :=
  let ww := st.num_channels
  let www := st.w * ww
  let start := y * www + x * ww
  let pixel := (st.rgba.drop start).take ww
  if st.color_type = 3 then
    match pixel.get? 0 with
    | none => none
    | some idx =>
      match st.palette with
      | none => none
      | some pal =>
        match pal.get? idx with
        | none => none
        | some entry =>
          let newPal :=
            if entry.length = 1 then
              pal.set idx (entry ++ [entry.getD 0 0, entry.getD 0 0, 255])
            else if entry.length = 3 then pal.set idx (entry ++ [255])
            else pal
          match padTuple entry with
          | none => none
          | some t => some (t, { st with palette := some newPal })
  else
    match padTuple pixel with
    | none => none
    | some t => some (t, st)

/-- A 1×1 indexed decoder state used to probe the palette mutation done
by `PngDecode.get`. -/
def indexedProbeState : DecoderState :=
  { w := 1, h := 1, color_type := 3, num_channels := 1, bit_depth := 8,
    compression := 0, filter := 0, interlace := 0,
    rgba := [0], idat_data := [], palette := some [[9, 8, 7]] }

/-! ## Helper lemmas -/

@[simp] theorem updPal_w (st : DecoderState) (p : Option (List (List Nat))) :
    ({ st with palette := p } : DecoderState).w = st.w := rfl

@[simp] theorem updPal_h (st : DecoderState) (p : Option (List (List Nat))) :
    ({ st with palette := p } : DecoderState).h = st.h := rfl

@[simp] theorem updPal_color (st : DecoderState) (p : Option (List (List Nat))) :
    ({ st with palette := p } : DecoderState).color_type = st.color_type := rfl

@[simp] theorem updPal_nc (st : DecoderState) (p : Option (List (List Nat))) :
    ({ st with palette := p } : DecoderState).num_channels = st.num_channels := rfl

@[simp] theorem updPal_depth (st : DecoderState) (p : Option (List (List Nat))) :
    ({ st with palette := p } : DecoderState).bit_depth = st.bit_depth := rfl

@[simp] theorem updPal_comp (st : DecoderState) (p : Option (List (List Nat))) :
    ({ st with palette := p } : DecoderState).compression = st.compression := rfl

@[simp] theorem updPal_filt (st : DecoderState) (p : Option (List (List Nat))) :
    ({ st with palette := p } : DecoderState).filter = st.filter := rfl

@[simp] theorem updPal_inter (st : DecoderState) (p : Option (List (List Nat))) :
    ({ st with palette := p } : DecoderState).interlace = st.interlace := rfl

@[simp] theorem updPal_rgba (st : DecoderState) (p : Option (List (List Nat))) :
    ({ st with palette := p } : DecoderState).rgba = st.rgba := rfl

@[simp] theorem updPal_idat (st : DecoderState) (p : Option (List (List Nat))) :
    ({ st with palette := p } : DecoderState).idat_data = st.idat_data := rfl

@[simp] theorem updPal_pal (st : DecoderState) (p : Option (List (List Nat))) :
    ({ st with palette := p } : DecoderState).palette = p := rfl

theorem rowStride_eq (w nc d : Nat) : rowStride w nc d = w * nc * d / 8 + 1 := by
  unfold rowStride
  rw [Nat.floor_add_one (by positivity), Nat.floor_div_ofNat, Nat.floor_natCast]

theorem get?_some_lt (l : List (List Nat)) (i : Nat) (a : List Nat)
    (h : l.get? i = some a) : i < l.length := by
  induction l generalizing i with
  | nil => simp [List.get?] at h
  | cons hd tl ih =>
    cases i with
    | zero => simp
    | succ n => exact Nat.succ_lt_succ (ih n h)

theorem get?_set_self (l : List (List Nat)) (i : Nat) (a : List Nat)
    (h : i < l.length) : (l.set i a).get? i = some a := by
  induction l generalizing i with
  | nil => simp at h
  | cons hd tl ih =>
    cases i with
    | zero => rfl
    | succ n => exact ih n (by simpa using h)

theorem decompressStage_fields (inflate : List Nat → List Nat) (st st2 : DecoderState)
    (h : decompressStage inflate st = Except.ok st2) :
    st2.color_type = st.color_type ∧ st2.palette = st.palette := by
  simp only [decompressStage] at h
  split at h
  · exact absurd h (by simp)
  · injection h with h2
    rw [← h2]
    exact ⟨rfl, rfl⟩

/-! ## Claim theorems -/

/-- C2: `PaethPredictor(a, b, c)` computes `p = a + b - c` in unbounded
integer arithmetic and returns `a` when `|p-a|` is ≤ both `|p-b|` and
`|p-c|`, else `b` when `|p-b| ≤ |p-c|`, else `c`; in particular
`PaethPredictor(10,10,10) = 10` and `PaethPredictor(0,0,10) = 0`
(`a` wins the tie with `b`). -/
theorem paethPredictor_spec :
    (∀ a b c : Int,
      (|a + b - c - a| ≤ |a + b - c - b| ∧ |a + b - c - a| ≤ |a + b - c - c| →
        paethPredictor a b c = a) ∧
      (¬(|a + b - c - a| ≤ |a + b - c - b| ∧ |a + b - c - a| ≤ |a + b - c - c|) →
        |a + b - c - b| ≤ |a + b - c - c| → paethPredictor a b c = b) ∧
      (¬(|a + b - c - a| ≤ |a + b - c - b| ∧ |a + b - c - a| ≤ |a + b - c - c|) →
        ¬(|a + b - c - b| ≤ |a + b - c - c|) → paethPredictor a b c = c)) ∧
    paethPredictor 10 10 10 = 10 ∧ paethPredictor 0 0 10 = 0 := by
  refine ⟨fun a b c => ?_, by decide, by decide⟩
  simp only [paethPredictor]
  refine ⟨fun h => if_pos h, fun h1 h2 => ?_, fun h1 h2 => ?_⟩
  · rw [if_neg h1, if_pos h2]
  · rw [if_neg h1, if_neg h2]

/-- Witness for C2: the tie `PaethPredictor(0, 0, 10)` goes to `a`. -/
theorem paethPredictor_spec_witness : paethPredictor 0 0 10 = 0 :=
  (paethPredictor_spec.1 0 0 10).1 (by decide)

/-- C3 (code bug): the claim says row 0 is defiltered against an
all-zero prior row, but the code crashes on row 0 for tags 2, 3 and 4:
the Up branch evaluates `bytes([0] * len(brow)-1)`, which is
`([0]*len(brow)) - 1` and raises `TypeError`; the Average and Paeth
branches pad the (empty) prior slice with only 8 zero bytes, so
`prior[i+8]` raises `IndexError`.  The last conjunct records what the
claim expects for the Up example: the row reconstructs to its raw
bytes. -/
theorem decodeRow_row0_crashes :
    decodeRow 8 false 1 1 [] [2, 5] = Except.error PngError.typeError ∧
    decodeRow 8 false 1 1 [] [3, 5] = Except.error PngError.indexError ∧
    decodeRow 8 false 1 1 [] [4, 5] = Except.error PngError.indexError ∧
    specDefilter 2 1 [5] [0] = [5] :=
  ⟨rfl, rfl, rfl, rfl⟩

/-- C4 (code bug): the claim (and the docstrings of `GetNormalizer` and
`ExplodeBytes`) say sub-8-bit samples of non-indexed images are rescaled
to fill 0..255, but `ExplodeBytes` passes the arguments of
`GetNormalizer` swapped (`GetNormalizer(is_indexed, depth)`), so the
truthy bit count lands in the `is_indexed` parameter and the normalizer
is the identity: the maximal 1/2/4-bit samples come out as 1, 3 and 15
instead of 255.  Indexed data is (correctly) passed through. -/
theorem explodeBytes_never_rescales :
    explodeBytes [255] 1 false = some [1, 1, 1, 1, 1, 1, 1, 1] ∧
    explodeBytes [255] 4 false = some [15, 15] ∧
    explodeBytes [192] 2 false = some [3, 0, 0, 0] ∧
    explodeBytes [7] 4 true = some [0, 7] :=
  ⟨rfl, rfl, rfl, rfl⟩

/-- C5 (code bug): the claim describes round-to-nearest downsampling of
16-bit samples, but the 16-bit branch of `ExplodeBytes` runs
`for i in range(0, len(data) / 2)` — a float argument to `range` — and
raises `TypeError` on every input before producing any output. -/
theorem explodeBytes16_always_raises : ∀ (data : List Nat) (b : Bool),
    explodeBytes data 16 b = none := fun _ _ => rfl

/-- C6 counterexample: with width 1, one channel and bit depth 1 the
code reads `int(1/8 + 1) = 1` byte per row (the filter tag alone), not
the `1 + ceil(1/8) = 2` bytes the claim states. -/
theorem rowStride_not_ceil : rowStride 1 1 1 ≠ 1 + (1 * 1 * 1 + 7) / 8 := by
  rw [rowStride_eq]
  decide

/-- C6 amended: each row slice is `1 + floor(w*c*d/8)` bytes — the tag
byte plus the row bytes rounded *down*; this agrees with the claimed
`1 + ceil(w*c*d/8)` exactly when `w*c*d` is a multiple of 8 (the only
case the code supports, per its own comment "assumed to be an integer
multiple of a byte"). -/
theorem rowStride_floor_characterization : ∀ w nc d : Nat,
    rowStride w nc d = w * nc * d / 8 + 1 ∧
    (w * nc * d % 8 = 0 → rowStride w nc d = (w * nc * d + 7) / 8 + 1) := by
  intro w nc d
  refine ⟨rowStride_eq w nc d, fun h8 => ?_⟩
  rw [rowStride_eq]
  omega

/-- Witness for the amended C6 at a byte-aligned depth. -/
theorem rowStride_floor_characterization_witness :
    1 * 1 * 8 % 8 = 0 ∧ rowStride 1 1 8 = (1 * 1 * 8 + 7) / 8 + 1 :=
  ⟨rfl, (rowStride_floor_characterization 1 1 8).2 rfl⟩

/-- C8 counterexample: a 4-byte PLTE payload is *not* a multiple of 3,
yet the handler installs a one-entry palette (the claim says any such
payload is ignored). -/
theorem plteHandler_len4_installs : plteHandler [1, 2, 3, 4] none = some [[1, 2, 3]] := rfl

/-- C8 amended: a palette is installed iff `1 ≤ len(payload) // 3 ≤ 255`,
i.e. iff `3 ≤ len ≤ 767`; the payload length need *not* be a multiple
of 3 — bytes after the last full triple are dropped.  Every other
payload leaves the palette untouched without raising. -/
theorem plteHandler_install_iff : ∀ (bchd : List Nat) (pal : Option (List (List Nat))),
    (plteHandler bchd none ≠ none ↔ 3 ≤ bchd.length ∧ bchd.length ≤ 767) ∧
    (¬(3 ≤ bchd.length ∧ bchd.length ≤ 767) → plteHandler bchd pal = pal) ∧
    (3 ≤ bchd.length → bchd.length ≤ 767 →
      ∃ entries, plteHandler bchd pal = some entries ∧
        entries.length = bchd.length / 3) := by
  intro bchd pal
  simp only [plteHandler]
  by_cases hc : bchd.length / 3 = 0 ∨ bchd.length / 3 > 255
  · simp only [if_pos hc]
    refine ⟨by simp; omega, fun _ => trivial, fun h3 h7 => absurd hc (by omega)⟩
  · simp only [if_neg hc]
    refine ⟨by simp; omega, fun hn => absurd hc (by omega),
      fun h3 h7 => ⟨_, rfl, by simp⟩⟩

/-- Witness for the amended C8: a minimal valid 3-byte payload installs
a one-entry palette. -/
theorem plteHandler_install_iff_witness :
    ∃ entries, plteHandler [1, 2, 3] none = some entries ∧ entries.length = 1 :=
  (plteHandler_install_iff [1, 2, 3] none).2.2 (by decide) (by decide)

/-- C9: when the chunk loop completes with an indexed color type
(IHDR color 3) and no palette installed, and decompression itself
succeeds, decoder construction fails with the missing-palette error —
raised after the full chunk parse (the parse itself returned
successfully, even past any IDAT records), never defaulting to an empty
palette. -/
theorem pngInit_missingPalette (inflate : List Nat → List Nat)
    (chunks : List (List Nat × List Nat)) (st st2 : DecoderState)
    (hparse : parseChunks initState chunks = Except.ok st)
    (hcolor : st.color_type = 3) (hpal : st.palette = none)
    (hdec : decompressStage inflate st = Except.ok st2) :
    pngInit inflate chunks = Except.error PngError.missingPalette := by
  have hf := decompressStage_fields inflate st st2 hdec
  simp only [pngInit, hparse, hdec]
  rw [if_pos ⟨by rw [hf.1, hcolor], by rw [hf.2, hpal]⟩]

/-- Witness for C9: an IHDR(color=3) stream with no PLTE chunk. -/
theorem pngInit_missingPalette_witness :
    pngInit (fun l => l)
      [([73, 72, 68, 82], [0, 0, 0, 0, 0, 0, 0, 0, 8, 3, 0, 0, 0]), ([73, 69, 78, 68], [])]
      = Except.error PngError.missingPalette :=
  pngInit_missingPalette (fun l => l)
    [([73, 72, 68, 82], [0, 0, 0, 0, 0, 0, 0, 0, 8, 3, 0, 0, 0]), ([73, 69, 78, 68], [])]
    { w := 0, h := 0, color_type := 3, num_channels := 1, bit_depth := 8,
      compression := 0, filter := 0, interlace := 0,
      rgba := [], idat_data := [], palette := none }
    { w := 0, h := 0, color_type := 3, num_channels := 1, bit_depth := 8,
      compression := 0, filter := 0, interlace := 0,
      rgba := [], idat_data := [], palette := none }
    rfl rfl rfl rfl

/-- C10 counterexample: the record type "idat" (lowercase) is *not*
skipped — `scht.upper()` maps it to "IDAT" and the payload is appended
to the image-data accumulator, so decoder state changes. -/
theorem processChunk_lowercase_idat_handled :
    processChunk initState [105, 100, 97, 116] [7]
      = Except.ok (StepResult.cont { initState with idat_data := [7] }) := rfl

/-- C10 amended: a chunk record whose 4-byte type field is not valid
UTF-8 makes `bcht.decode('utf-8')` raise `UnicodeDecodeError`, aborting
construction; a record whose type decodes is dispatched to a handler
iff its *uppercased* type is one of IHDR, IDAT, PLTE, IEND (so
lowercase and mixed-case variants of those names are dispatched
case-insensitively, not skipped); every decodable record whose
uppercased type matches none of the four is silently skipped with no
effect on decoder state. -/
theorem processChunk_dispatch : ∀ (st : DecoderState) (t payload : List Nat),
    (validUtf8 t = false →
      processChunk st t payload = Except.error PngError.unicodeDecodeError) ∧
    (validUtf8 t = true → upperBytes t ∉ handledTypes →
      processChunk st t payload = Except.ok (StepResult.cont st)) ∧
    (validUtf8 t = true → upperBytes t = ihdrName → processChunk st t payload
      = (ihdrHandler st payload).map StepResult.cont) ∧
    (validUtf8 t = true → upperBytes t = idatName → processChunk st t payload
      = Except.ok (StepResult.cont { st with idat_data := st.idat_data ++ payload })) ∧
    (validUtf8 t = true → upperBytes t = plteName → processChunk st t payload
      = Except.ok (StepResult.cont { st with palette := plteHandler payload st.palette })) ∧
    (validUtf8 t = true → upperBytes t = iendName →
      processChunk st t payload = Except.ok (StepResult.stop st)) := by
  intro st t payload
  simp only [processChunk]
  refine ⟨fun hv => by rw [if_neg (by rw [hv]; exact Bool.false_ne_true)],
    fun hv hn => ?_, fun hv h => by rw [if_pos hv, h]; rfl,
    fun hv h => by rw [if_pos hv, h]; rfl, fun hv h => by rw [if_pos hv, h]; rfl,
    fun hv h => by rw [if_pos hv, h]; rfl⟩
  · rw [if_pos hv]
    simp only [handledTypes, List.mem_cons, List.not_mem_nil, or_false, not_or] at hn
    obtain ⟨h1, h2, h3, h4⟩ := hn
    rw [if_neg h1, if_neg h2, if_neg h3, if_neg h4]

/-- Witness for the amended C10: the lowercase "idat" record is
dispatched to the IDAT handler, and an invalid-UTF-8 type field (a lone
continuation byte 0x80 first) aborts with the decode error. -/
theorem processChunk_dispatch_witness :
    processChunk initState [105, 100, 97, 116] [7]
      = Except.ok (StepResult.cont { initState with idat_data := initState.idat_data ++ [7] }) ∧
    processChunk initState [128, 72, 68, 82] [7]
      = Except.error PngError.unicodeDecodeError :=
  ⟨(processChunk_dispatch initState [105, 100, 97, 116] [7]).2.2.2.1 rfl rfl,
    (processChunk_dispatch initState [128, 72, 68, 82] [7]).1 rfl⟩

/-- C7 counterexample: on an indexed image the first `get(0, 0)` call
does *not* leave the decoder state unchanged: `pixel` aliases the
palette entry, and `pixel.append(255)` grows that entry in place, so
the palette after the call differs from the palette before it. -/
theorem getPixel_mutates_palette :
    getPixel indexedProbeState 0 0
      = some ((9, 8, 7, 255),
        { indexedProbeState with palette := some [[9, 8, 7, 255]] }) ∧
    some [[9, 8, 7, 255]] ≠ indexedProbeState.palette :=
  ⟨rfl, by decide⟩

/-- C7 amended: every successful `get(x, y)` leaves the pixel buffer
unchanged, leaves the whole state unchanged for non-indexed color
types, and is idempotent: calling `get` again at the same coordinates
on the post-call state returns the same tuple and no longer changes the
state.  (For indexed images the first call may pad the resolved palette
entry in place with alpha 255; that is the only state change.) -/
theorem getPixel_stable (st : DecoderState) (x y : Nat) (r : Nat × Nat × Nat × Nat)
    (st2 : DecoderState) (h : getPixel st x y = some (r, st2)) :
    st2.rgba = st.rgba ∧ (st.color_type ≠ 3 → st2 = st) ∧
    getPixel st2 x y = some (r, st2) := by
  by_cases hc : st.color_type = 3
  · simp only [getPixel, if_pos hc] at h
    split at h
    · exact absurd h (by simp)
    rename_i idx heq1
    split at h
    · exact absurd h (by simp)
    rename_i pal heq2
    split at h
    · exact absurd h (by simp)
    rename_i entry heq3
    split at h
    · exact absurd h (by simp)
    rename_i t heq4
    injection h with h'
    injection h' with hr hs
    subst hr
    subst hs
    refine ⟨rfl, fun hn => absurd hc hn, ?_⟩
    have hlt := get?_some_lt pal idx entry heq3
    by_cases hl1 : entry.length = 1
    · have hget2 : (pal.set idx (entry ++ [entry.getD 0 0, entry.getD 0 0, 255])).get? idx
          = some (entry ++ [entry.getD 0 0, entry.getD 0 0, 255]) := get?_set_self _ _ _ hlt
      have hlen4 : (entry ++ [entry.getD 0 0, entry.getD 0 0, 255]).length = 4 := by
        simp [hl1]
      have ht4 : tuple4 (entry ++ [entry.getD 0 0, entry.getD 0 0, 255]) = some t := by
        rw [← heq4]
        simp only [padTuple, if_pos hl1]
      simp only [getPixel, updPal_w, updPal_h, updPal_color, updPal_nc, updPal_depth,
        updPal_comp, updPal_filt, updPal_inter, updPal_rgba, updPal_idat, updPal_pal,
        if_pos hc, heq1, if_pos hl1, hget2, hlen4, padTuple, ht4,
        if_neg (by decide : ¬(4 : Nat) = 1), if_neg (by decide : ¬(4 : Nat) = 2),
        if_neg (by decide : ¬(4 : Nat) = 3)]
    · by_cases hl3 : entry.length = 3
      · have hget2 : (pal.set idx (entry ++ [255])).get? idx
            = some (entry ++ [255]) := get?_set_self _ _ _ hlt
        have hlen4 : (entry ++ [255]).length = 4 := by simp [hl3]
        have ht4 : tuple4 (entry ++ [255]) = some t := by
          rw [← heq4]
          simp only [padTuple, if_neg hl1, if_neg (by omega : ¬entry.length = 2), if_pos hl3]
        simp only [getPixel, updPal_w, updPal_h, updPal_color, updPal_nc, updPal_depth,
          updPal_comp, updPal_filt, updPal_inter, updPal_rgba, updPal_idat, updPal_pal,
          if_pos hc, heq1, if_neg hl1, if_pos hl3, hget2, hlen4, padTuple, ht4,
          if_neg (by decide : ¬(4 : Nat) = 1), if_neg (by decide : ¬(4 : Nat) = 2),
          if_neg (by decide : ¬(4 : Nat) = 3)]
      · simp only [getPixel, updPal_w, updPal_h, updPal_color, updPal_nc, updPal_depth,
          updPal_comp, updPal_filt, updPal_inter, updPal_rgba, updPal_idat, updPal_pal,
          if_pos hc, heq1, if_neg hl1, if_neg hl3, heq3, heq4]
  · simp only [getPixel, if_neg hc] at h
    split at h
    · exact absurd h (by simp)
    rename_i t heq4
    injection h with h'
    injection h' with hr hs
    subst hr
    subst hs
    refine ⟨rfl, fun _ => rfl, ?_⟩
    simp only [getPixel, if_neg hc, heq4]

/-- Witness for the amended C7: the probe state after one `get` call is
stable under a repeated call. -/
theorem getPixel_stable_witness :
    ({ indexedProbeState with palette := some [[9, 8, 7, 255]] } : DecoderState).rgba
        = indexedProbeState.rgba ∧
    (indexedProbeState.color_type ≠ 3 →
      { indexedProbeState with palette := some [[9, 8, 7, 255]] } = indexedProbeState) ∧
    getPixel { indexedProbeState with palette := some [[9, 8, 7, 255]] } 0 0
      = some ((9, 8, 7, 255),
        { indexedProbeState with palette := some [[9, 8, 7, 255]] }) :=
  getPixel_stable indexedProbeState 0 0 (9, 8, 7, 255)
    { indexedProbeState with palette := some [[9, 8, 7, 255]] } rfl
